import Mathlib

/-
Shallow embedding of the cfspeedtest measurement engine (src/main.rs).

Machine `f64` values are modelled as exact rationals (`ℚ`); the IEEE
infinities used as fold seeds in `log_measurements` are modelled with
`WithTop ℚ` / `WithBot ℚ`. Wall-clock durations and the network are
external inputs: each embedded function takes the data the real code
obtains from the clock or from an HTTP response as an explicit argument.
Rust panics (`expect`, `unwrap`, out-of-bounds indexing) are modelled as
`Except.error` with a `RunError` describing the panic kind.
-/

/-- Rust `TestType` from main.rs (line 22). -/
inductive TestType where
  | Download
  | Upload
deriving DecidableEq

/-- Rust `Measurement` from main.rs (line 27); `mbit : f64` modelled as `ℚ`. -/
structure Measurement where
  test_type : TestType
  payload_size : ℕ
  mbit : ℚ
deriving DecidableEq

/-- Rust `Metadata` from main.rs (line 45). -/
structure Metadata where
  city : String
  country : String
  ip : String
  asn : String
  colo : String
deriving DecidableEq

/-- Failure kinds of the embedded code. `transportError` models a failed
`send()` (`expect("failed to get response")`); `protocolError` models the
`expect`/`unwrap` panics while reading the `Server-Timing` header in
`test_latency`; `indexOutOfBounds` models the Rust panic on
`measurements[0]` in `log_measurements`; `emptyInput` is the spec's
`EmptyInputError` taxonomy name (§7), present for comparison only — the
source never produces it. -/
inductive RunError where
  | transportError
  | protocolError
  | indexOutOfBounds
  | emptyInput
deriving DecidableEq

instance {ε α : Type} [DecidableEq ε] [DecidableEq α] : DecidableEq (Except ε α) := fun a b =>
  match a, b with
  | Except.ok x, Except.ok y =>
    if h : x = y then isTrue (by rw [h]) else isFalse (fun hc => h (Except.ok.inj hc))
  | Except.error x, Except.error y =>
    if h : x = y then isTrue (by rw [h]) else isFalse (fun hc => h (Except.error.inj hc))
  | Except.ok _, Except.error _ => isFalse (fun hc => Except.noConfusion hc)
  | Except.error _, Except.ok _ => isFalse (fun hc => Except.noConfusion hc)

/-- Constant `NR_TEST_RUNS` from main.rs (line 17). -/
def NR_TEST_RUNS : ℕ := 10

/-- Constant `PAYLOAD_SIZES` from main.rs (line 18). -/
def PAYLOAD_SIZES : List ℕ := [100000, 1000000, 10000000]

/-- Constant `NR_LATENCY_TESTS` from main.rs (line 19). -/
def NR_LATENCY_TESTS : ℕ := 25

/-- An HTTP response as seen by `timed_send`: status code and body bytes. -/
structure HttpResponse where
  status : ℕ
  body : List ℕ
deriving DecidableEq

/-- Function `timed_send` from main.rs (lines 207-218). The elapsed wall-clock time
(`duration.as_secs_f64()`) is an external input `elapsed_secs`. The body is
drained (`let _res_bytes = response.bytes()`) but its contents never enter
the computation:
`mbits = (payload_size_bytes as f64 * 8.0 / 1_000_000.0) / duration`. -/
def timed_send (response : HttpResponse) (payload_size_bytes : ℕ) (elapsed_secs : ℚ) :
    ℕ × ℚ × ℚ :=
  let status_code := response.status
  let mbits := ((payload_size_bytes : ℚ) * 8 / 1000000) / elapsed_secs
  (status_code, mbits, elapsed_secs)

/-- The clamping step of `test_latency` (main.rs lines 117-122):
`req_latency = duration - cf_req_duration; if req_latency < 0.0 { 0.0 }`. -/
def corrected_latency (duration cf_req_duration : ℚ) : ℚ :=
  let req_latency := duration - cf_req_duration
  if req_latency < 0 then 0 else req_latency

/-- Characters matched by the `[\d.]` class of the regex in main.rs line 101. -/
def isDurChar (c : Char) : Bool := c.isDigit || c = '.'

/-- The literal part of the regex `cfRequestDuration;dur=([\d.]+)`. -/
def durLiteral : List Char := "cfRequestDuration;dur=".toList

/-- Leftmost match of the regex `cfRequestDuration;dur=([\d.]+)` (main.rs
line 101): scan left to right; at the first position where the literal is
followed by a nonempty run of `[\d.]` characters, capture that maximal run. -/
def find_capture : List Char → Option (List Char)
  | [] => none
  | c :: rest =>
    if durLiteral.isPrefixOf (c :: rest) then
      let cap := ((c :: rest).drop durLiteral.length).takeWhile isDurChar
      if cap.isEmpty then find_capture rest else some cap
    else find_capture rest

/-- Digit characters to a natural number, most significant first. -/
def digitsToNat (l : List Char) : ℕ :=
  l.foldl (fun a c => 10 * a + (c.toNat - 48)) 0

/-- Rust `str::parse::<f64>()` restricted to the `[\d.]+` strings the
capture group can produce (main.rs line 115): valid iff nonempty, at most
one dot and at least one digit; the value is read exactly into `ℚ`. -/
def parse_float (l : List Char) : Option ℚ :=
  if l ≠ [] ∧ l.count '.' ≤ 1 ∧ l.any Char.isDigit = true ∧ l.all isDurChar = true then
    let intPart := l.takeWhile (fun c => c ≠ '.')
    let fracPart := (l.dropWhile (fun c => c ≠ '.')).drop 1
    some ((digitsToNat intPart : ℚ) + (digitsToNat fracPart : ℚ) / (10 : ℚ) ^ fracPart.length)
  else none

/-- Function `test_latency` from main.rs (lines 92-123). The client-observed
duration in milliseconds and the `Server-Timing` header value (when
present) are external inputs. A missing header
(`expect("No Server-Timing in response header")`), a regex mismatch
(`captures(...).unwrap()`) or an unparseable capture (`parse().unwrap()`)
panic, modelled as `protocolError`. -/
def test_latency (duration_ms : ℚ) (server_timing : Option String) : Except RunError ℚ :=
  match server_timing with
  | none => Except.error RunError.protocolError
  | some s =>
    match find_capture s.toList with
    | none => Except.error RunError.protocolError
    | some cap =>
      match parse_float cap with
      | none => Except.error RunError.protocolError
      | some cf_req_duration => Except.ok (corrected_latency duration_ms cf_req_duration)

/-- The loop of `run_latency_test` (main.rs lines 78-83) over an explicit
list of iteration indices. `resp i` is the pair (client-observed duration,
`Server-Timing` header) of iteration `i`; the first panic aborts the run. -/
def latency_samples (resp : ℕ → ℚ × Option String) : List ℕ → Except RunError (List ℚ)
  | [] => Except.ok []
  | i :: rest =>
    match test_latency (resp i).1 (resp i).2 with
    | Except.error e => Except.error e
    | Except.ok latency =>
      match latency_samples resp rest with
      | Except.error e => Except.error e
      | Except.ok xs => Except.ok (latency :: xs)

/-- Function `run_latency_test` from main.rs (lines 77-90): the loop
`for i in 0..=NR_LATENCY_TESTS` runs `NR_LATENCY_TESTS + 1` iterations,
then `avg_latency = sum / len`. -/
def run_latency_test (resp : ℕ → ℚ × Option String) : Except RunError (List ℚ × ℚ) :=
  match latency_samples resp (List.range (NR_LATENCY_TESTS + 1)) with
  | Except.error e => Except.error e
  | Except.ok measurements =>
    Except.ok (measurements, measurements.sum / (measurements.length : ℚ))

/-- Summary printed by `log_measurements` (main.rs lines 151-168):
test type of `measurements[0]`, min, max and mean of the `mbit` values. -/
structure LogSummary where
  test_type : TestType
  min : WithTop ℚ
  max : WithBot ℚ
  avg : ℚ
deriving DecidableEq

/-- Function `log_measurements` from main.rs (lines 151-168): folds `f64::min` from
`INFINITY` (here `⊤`) and `f64::max` from `NEG_INFINITY` (here `⊥`) over
the `mbit` values, computes `avg = sum / len`, then reads
`measurements[0].test_type` — which panics (out-of-bounds index) on an
empty slice; there is no empty-input guard in the source. (On the empty
slice Rust's `avg` is `0.0/0.0 = NaN`, unrepresentable in `ℚ`; the value is
unobservable there since the indexing panic always fires first.) -/
def log_measurements (measurements : List Measurement) : Except RunError LogSummary :=
  let mn : WithTop ℚ :=
    (measurements.map Measurement.mbit).foldl (fun a b => min a (b : WithTop ℚ)) ⊤
  let mx : WithBot ℚ :=
    (measurements.map Measurement.mbit).foldl (fun a b => max a (b : WithBot ℚ)) ⊥
  let avg : ℚ := (measurements.map Measurement.mbit).sum / (measurements.length : ℚ)
  match measurements with
  | [] => Except.error RunError.indexOutOfBounds
  | m0 :: _ => Except.ok ⟨m0.test_type, mn, mx, avg⟩

/-- Function `run_tests` from main.rs (lines 125-149): for each payload size in
`PAYLOAD_SIZES`, in order, `NR_TEST_RUNS` sequential runs; each run pushes
one `Measurement` with the given test type, that payload size and the rate
returned by the test function. The test function's network-dependent
result for run `i` at a given payload size is the oracle `mbits ps i`.
(The trailing `log_measurements` call only prints; the measurement list is
returned unchanged.) -/
def run_tests (mbits : ℕ → ℕ → ℚ) (test_type : TestType) : List Measurement :=
  PAYLOAD_SIZES.flatMap fun payload_size =>
    (List.range NR_TEST_RUNS).map fun i =>
      Measurement.mk test_type payload_size (mbits payload_size i)

/-- Function `extract_header_value` from main.rs (lines 237-248): the header map is
a function from header name to optional value; a missing header yields the
`na_value` sentinel. -/
def extract_header_value (headers : String → Option String) (header_name na_value : String) :
    String :=
  (headers header_name).getD na_value

/-- Function `fetch_metadata` from main.rs (lines 220-235): the response headers of
the zero-byte probe are an external input. -/
def fetch_metadata (headers : String → Option String) : Metadata :=
  Metadata.mk
    (extract_header_value headers "cf-meta-city" "City N/A")
    (extract_header_value headers "cf-meta-country" "Country N/A")
    (extract_header_value headers "cf-meta-ip" "IP N/A")
    (extract_header_value headers "cf-meta-asn" "ASN N/A")
    (extract_header_value headers "cf-meta-colo" "Colo N/A")

/-- Function `format_bytes` from main.rs (lines 199-205). -/
def format_bytes (bytes : ℕ) : String :=
  if 1000 ≤ bytes ∧ bytes ≤ 999999 then toString (bytes / 1000) ++ "KB"
  else if 1000000 ≤ bytes ∧ bytes ≤ 999999999 then toString (bytes / 1000000) ++ "MB"
  else toString bytes ++ " bytes"

/-- Concrete header map used to instantiate the metadata theorem: only
`cf-meta-city` is present, with value `Berlin`. -/
def hdrsCityOnly : String → Option String :=
  fun n => if n = "cf-meta-city" then some "Berlin" else none

/-- Concrete iteration oracle used to instantiate the latency theorems:
every iteration observes 50 ms with server-reported duration 10 ms. -/
def respConst : ℕ → ℚ × Option String :=
  fun _ => (50, some "cfRequestDuration;dur=10")


/-- C1: for every payload size `p > 0` and elapsed time `t > 0`, the
throughput recorded by `timed_send` equals `p * 8 / 1_000_000 / t` megabits
per second, and this value is strictly greater than 0. -/
theorem timed_send_throughput_positive (r : HttpResponse) (p : ℕ) (t : ℚ)
    (hp : 0 < p) (ht : 0 < t) :
    (timed_send r p t).2.1 = (p : ℚ) * 8 / 1000000 / t ∧
      0 < (timed_send r p t).2.1 := by
  have hp' : (0 : ℚ) < (p : ℚ) := by exact_mod_cast hp
  refine ⟨rfl, ?_⟩
  show 0 < ((p : ℚ) * 8 / 1000000) / t
  exact div_pos (div_pos (mul_pos hp' (by norm_num)) (by norm_num)) ht

/-- Witness for C1 at `p = 100000`, `t = 1/10` (result `8` mbit/s). -/
theorem timed_send_throughput_positive_witness :
    0 < 100000 ∧ (0 : ℚ) < 1 / 10 ∧
      ((timed_send (HttpResponse.mk 200 []) 100000 (1 / 10)).2.1 =
          (100000 : ℚ) * 8 / 1000000 / (1 / 10) ∧
        0 < (timed_send (HttpResponse.mk 200 []) 100000 (1 / 10)).2.1) :=
  ⟨by norm_num, by norm_num,
    timed_send_throughput_positive (HttpResponse.mk 200 []) 100000 (1 / 10)
      (by norm_num) (by norm_num)⟩

/-- C2: for every client-observed duration and server-reported duration,
the corrected latency sample produced by `test_latency` equals
`max 0 (client - server)`; in particular it is never negative. -/
theorem corrected_latency_is_clamped (c s : ℚ) :
    corrected_latency c s = max 0 (c - s) ∧ 0 ≤ corrected_latency c s := by
  unfold corrected_latency
  by_cases h : c - s < 0
  · rw [if_pos h, max_eq_left h.le]
    exact ⟨rfl, le_refl 0⟩
  · push_neg at h
    rw [if_neg (not_lt.mpr h), max_eq_right h]
    exact ⟨rfl, h⟩

/-- C9: the byte-size formatter on the spec's sample points, and on the
whole KB and MB ranges. -/
theorem format_bytes_ranges :
    format_bytes 500 = "500 bytes" ∧ format_bytes 1000 = "1KB" ∧
      format_bytes 1000000 = "1MB" ∧
      (∀ b : ℕ, 1000 ≤ b → b ≤ 999999 →
        format_bytes b = toString (b / 1000) ++ "KB") ∧
      (∀ b : ℕ, 1000000 ≤ b → b ≤ 999999999 →
        format_bytes b = toString (b / 1000000) ++ "MB") := by
  refine ⟨by decide, by decide, by decide, ?_, ?_⟩
  · intro b h1 h2
    unfold format_bytes
    rw [if_pos ⟨h1, h2⟩]
  · intro b h1 h2
    unfold format_bytes
    rw [if_neg (by omega), if_pos ⟨h1, h2⟩]

/-- Witness for C9 at `b = 5000` (KB range) and `b = 2500000` (MB range). -/
theorem format_bytes_ranges_witness :
    (1000 ≤ 5000 ∧ 5000 ≤ 999999 ∧
        format_bytes 5000 = toString (5000 / 1000) ++ "KB") ∧
      (1000000 ≤ 2500000 ∧ 2500000 ≤ 999999999 ∧
        format_bytes 2500000 = toString (2500000 / 1000000) ++ "MB") :=
  ⟨⟨by norm_num, by norm_num,
      format_bytes_ranges.2.2.2.1 5000 (by norm_num) (by norm_num)⟩,
    ⟨by norm_num, by norm_num,
      format_bytes_ranges.2.2.2.2 2500000 (by norm_num) (by norm_num)⟩⟩

/-- C10: the throughput reported by `timed_send` is computed solely from
the requested payload size and the elapsed time: two responses with
different bodies but equal elapsed time yield the identical mbit value,
which equals `p * 8 / 1_000_000 / t` regardless of the bytes received. -/
theorem timed_send_ignores_body (r1 r2 : HttpResponse) (p : ℕ) (t : ℚ)
    (_hbody : r1.body ≠ r2.body) :
    (timed_send r1 p t).2.1 = (timed_send r2 p t).2.1 ∧
      (timed_send r1 p t).2.1 = (p : ℚ) * 8 / 1000000 / t :=
  ⟨rfl, rfl⟩

/-- Witness for C10: a one-byte body versus an empty body, same elapsed
time, same reported throughput. -/
theorem timed_send_ignores_body_witness :
    (HttpResponse.mk 200 [1]).body ≠ (HttpResponse.mk 200 []).body ∧
      ((timed_send (HttpResponse.mk 200 [1]) 5 2).2.1 =
          (timed_send (HttpResponse.mk 200 []) 5 2).2.1 ∧
        (timed_send (HttpResponse.mk 200 [1]) 5 2).2.1 =
          (5 : ℚ) * 8 / 1000000 / 2) :=
  ⟨by decide,
    timed_send_ignores_body (HttpResponse.mk 200 [1]) (HttpResponse.mk 200 []) 5 2
      (by decide)⟩

/-- C4 (amended): applied to the empty measurement sequence, the
aggregation step fails — but with the out-of-bounds indexing panic on
`measurements[0]`, not with an explicit `EmptyInputError` guard — and the
empty sequence is the only input on which it fails. -/
theorem log_measurements_fails_iff_empty :
    (∀ ms : List Measurement, ms ≠ [] → ∃ s, log_measurements ms = Except.ok s) ∧
      log_measurements [] = Except.error RunError.indexOutOfBounds := by
  constructor
  · intro ms h
    match ms with
    | [] => exact absurd rfl h
    | m :: rest => exact ⟨_, rfl⟩
  · rfl

/-- Witness for C4 at the one-element list: the aggregation succeeds. -/
theorem log_measurements_fails_iff_empty_witness :
    ([Measurement.mk TestType.Download 100000 8] : List Measurement) ≠ [] ∧
      ∃ s, log_measurements [Measurement.mk TestType.Download 100000 8] = Except.ok s :=
  ⟨by simp,
    log_measurements_fails_iff_empty.1 [Measurement.mk TestType.Download 100000 8] (by simp)⟩

/-- Counterexample for C4 as stated: on the empty input the code fails with
the indexing panic, which is not the spec's `EmptyInputError`. -/
theorem log_measurements_empty_counterexample :
    log_measurements [] = Except.error RunError.indexOutOfBounds ∧
      (Except.error RunError.indexOutOfBounds : Except RunError LogSummary) ≠
        Except.error RunError.emptyInput := by
  refine ⟨rfl, fun h => ?_⟩
  cases Except.error.inj h

/-- C5: aggregating a one-element sequence `[m]` yields min, max and mean
all equal to `m`'s throughput value. -/
theorem log_measurements_singleton (m : Measurement) :
    log_measurements [m] =
      Except.ok
        (LogSummary.mk m.test_type (m.mbit : WithTop ℚ) (m.mbit : WithBot ℚ) m.mbit) := by
  show Except.ok
      (LogSummary.mk m.test_type
        (min ⊤ (m.mbit : WithTop ℚ)) (max ⊥ (m.mbit : WithBot ℚ))
        ((m.mbit + 0) / ((1 : ℕ) : ℚ))) = _
  rw [min_eq_right le_top, max_eq_right bot_le]
  norm_num

/-- C6: for each of the five fixed metadata header names, `fetch_metadata`
stores the literal header value when present and the field-specific
sentinel `"<FieldLabel> N/A"` when absent; it is a total function of the
headers, so a missing header never causes it to fail. -/
theorem fetch_metadata_fields (h : String → Option String) (v : String) :
    ((h "cf-meta-city" = some v → (fetch_metadata h).city = v) ∧
      (h "cf-meta-city" = none → (fetch_metadata h).city = "City N/A")) ∧
    ((h "cf-meta-country" = some v → (fetch_metadata h).country = v) ∧
      (h "cf-meta-country" = none → (fetch_metadata h).country = "Country N/A")) ∧
    ((h "cf-meta-ip" = some v → (fetch_metadata h).ip = v) ∧
      (h "cf-meta-ip" = none → (fetch_metadata h).ip = "IP N/A")) ∧
    ((h "cf-meta-asn" = some v → (fetch_metadata h).asn = v) ∧
      (h "cf-meta-asn" = none → (fetch_metadata h).asn = "ASN N/A")) ∧
    ((h "cf-meta-colo" = some v → (fetch_metadata h).colo = v) ∧
      (h "cf-meta-colo" = none → (fetch_metadata h).colo = "Colo N/A")) := by
  refine ⟨⟨?_, ?_⟩, ⟨?_, ?_⟩, ⟨?_, ?_⟩, ⟨?_, ?_⟩, ⟨?_, ?_⟩⟩ <;>
    intro hv <;> simp [fetch_metadata, extract_header_value, hv]

/-- Witness for C6 at a header map holding only `cf-meta-city = Berlin`:
the present header is copied literally, each absent header yields its
sentinel. -/
theorem fetch_metadata_fields_witness :
    (fetch_metadata hdrsCityOnly).city = "Berlin" ∧
      (fetch_metadata hdrsCityOnly).country = "Country N/A" ∧
      (fetch_metadata hdrsCityOnly).ip = "IP N/A" ∧
      (fetch_metadata hdrsCityOnly).asn = "ASN N/A" ∧
      (fetch_metadata hdrsCityOnly).colo = "Colo N/A" :=
  ⟨(fetch_metadata_fields hdrsCityOnly "Berlin").1.1 (by decide),
    (fetch_metadata_fields hdrsCityOnly "Berlin").2.1.2 (by decide),
    (fetch_metadata_fields hdrsCityOnly "Berlin").2.2.1.2 (by decide),
    (fetch_metadata_fields hdrsCityOnly "Berlin").2.2.2.1.2 (by decide),
    (fetch_metadata_fields hdrsCityOnly "Berlin").2.2.2.2.2 (by decide)⟩

lemma find_capture_ten :
    find_capture "cfRequestDuration;dur=10".toList = some ['1', '0'] := by decide

lemma parse_float_ten : parse_float ['1', '0'] = some 10 := by
  show some (((10 : ℕ) : ℚ) + ((0 : ℕ) : ℚ) / (10 : ℚ) ^ (0 : ℕ)) = some 10
  norm_num

lemma test_latency_eval (d : ℚ) (s : String) (cap : List Char) (v : ℚ)
    (h1 : find_capture s.toList = some cap) (h2 : parse_float cap = some v) :
    test_latency d (some s) = Except.ok (corrected_latency d v) := by
  simp only [test_latency, h1, h2]

lemma test_latency_fifty_ten :
    test_latency 50 (some "cfRequestDuration;dur=10") = Except.ok 40 := by
  rw [test_latency_eval 50 _ ['1', '0'] 10 find_capture_ten parse_float_ten]
  norm_num [corrected_latency]

lemma latency_samples_ok_of_all (resp : ℕ → ℚ × Option String) (f : ℕ → ℚ) :
    ∀ is : List ℕ, (∀ i ∈ is, test_latency (resp i).1 (resp i).2 = Except.ok (f i)) →
      latency_samples resp is = Except.ok (is.map f) := by
  intro is
  induction is with
  | nil => intro _; rfl
  | cons i rest ih =>
    intro h
    have hi := h i (List.mem_cons_self i rest)
    have hr := ih fun j hj => h j (List.mem_cons_of_mem i hj)
    simp only [latency_samples, hi, hr, List.map_cons]

lemma run_latency_test_ok_of_all (resp : ℕ → ℚ × Option String) (f : ℕ → ℚ)
    (h : ∀ i, i ≤ NR_LATENCY_TESTS → test_latency (resp i).1 (resp i).2 = Except.ok (f i)) :
    run_latency_test resp =
      Except.ok ((List.range (NR_LATENCY_TESTS + 1)).map f,
        ((List.range (NR_LATENCY_TESTS + 1)).map f).sum /
          (((List.range (NR_LATENCY_TESTS + 1)).map f).length : ℚ)) := by
  have hs := latency_samples_ok_of_all resp f (List.range (NR_LATENCY_TESTS + 1))
    fun i hi => h i (by have := List.mem_range.mp hi; omega)
  simp only [run_latency_test, hs]

lemma latency_samples_each_ok (resp : ℕ → ℚ × Option String) :
    ∀ (is : List ℕ) (xs : List ℚ), latency_samples resp is = Except.ok xs →
      ∀ i ∈ is, ∃ q, test_latency (resp i).1 (resp i).2 = Except.ok q := by
  intro is
  induction is with
  | nil => intro xs _ i hi; cases hi
  | cons j rest ih =>
    intro xs hxs i hi
    cases hv : test_latency (resp j).1 (resp j).2 with
    | error e =>
      simp only [latency_samples, hv] at hxs
      exact Except.noConfusion hxs
    | ok q =>
      rcases List.mem_cons.mp hi with rfl | hmem
      · exact ⟨q, hv⟩
      · simp only [latency_samples, hv] at hxs
        cases hrest : latency_samples resp rest with
        | error e => rw [hrest] at hxs; exact Except.noConfusion hxs
        | ok ys => exact ih ys hrest i hmem

/-- C3: when every iteration succeeds, the latency probe performs exactly
`NR_LATENCY_TESTS + 1` iterations, collecting the corrected sample of
iteration `i` at position `i`, and returns as the mean the sum of the
collected samples divided by their number. -/
theorem run_latency_test_mean (resp : ℕ → ℚ × Option String) (f : ℕ → ℚ)
    (h : ∀ i, i ≤ NR_LATENCY_TESTS → test_latency (resp i).1 (resp i).2 = Except.ok (f i)) :
    run_latency_test resp =
      Except.ok ((List.range (NR_LATENCY_TESTS + 1)).map f,
        ((List.range (NR_LATENCY_TESTS + 1)).map f).sum /
          (((List.range (NR_LATENCY_TESTS + 1)).map f).length : ℚ)) ∧
      ((List.range (NR_LATENCY_TESTS + 1)).map f).length = NR_LATENCY_TESTS + 1 :=
  ⟨run_latency_test_ok_of_all resp f h, by simp⟩

/-- Witness for C3: every iteration observes 50 ms with server-reported
10 ms, so all 26 samples are 40 ms. -/
theorem run_latency_test_mean_witness :
    (∀ i, i ≤ NR_LATENCY_TESTS →
      test_latency (respConst i).1 (respConst i).2 = Except.ok ((fun _ => (40 : ℚ)) i)) ∧
    (run_latency_test respConst =
      Except.ok ((List.range (NR_LATENCY_TESTS + 1)).map (fun _ => (40 : ℚ)),
        ((List.range (NR_LATENCY_TESTS + 1)).map (fun _ => (40 : ℚ))).sum /
          (((List.range (NR_LATENCY_TESTS + 1)).map (fun _ => (40 : ℚ))).length : ℚ)) ∧
      ((List.range (NR_LATENCY_TESTS + 1)).map (fun _ => (40 : ℚ))).length =
        NR_LATENCY_TESTS + 1) :=
  ⟨fun _ _ => test_latency_fifty_ten,
    run_latency_test_mean respConst (fun _ => (40 : ℚ)) fun _ _ => test_latency_fifty_ten⟩

/-- C7: a missing `Server-Timing` header, or a value with no match of the
pattern `cfRequestDuration;dur=<float>`, makes the latency probe fail with
a protocol error rather than produce a sample of 0; and a run that
succeeds contains no failed sample, i.e. no per-sample retry or fallback
exists. -/
theorem test_latency_protocol_failure :
    (∀ d : ℚ, test_latency d none = Except.error RunError.protocolError) ∧
    (∀ (d : ℚ) (s : String), find_capture s.toList = none →
      test_latency d (some s) = Except.error RunError.protocolError) ∧
    (∀ (resp : ℕ → ℚ × Option String) (out : List ℚ × ℚ),
      run_latency_test resp = Except.ok out →
      ∀ i, i ≤ NR_LATENCY_TESTS → ∃ q, test_latency (resp i).1 (resp i).2 = Except.ok q) := by
  refine ⟨fun d => rfl, fun d s h => by simp only [test_latency, h], ?_⟩
  intro resp out hout i hi
  cases hs : latency_samples resp (List.range (NR_LATENCY_TESTS + 1)) with
  | error e =>
    simp only [run_latency_test, hs] at hout
    exact Except.noConfusion hout
  | ok xs =>
    exact latency_samples_each_ok resp _ xs hs i (List.mem_range.mpr (by omega))

/-- Witness for C7: a missing header and the unmatched value `hello` both
fail; a fully successful run has a successful sample at iteration 0. -/
theorem test_latency_protocol_failure_witness :
    test_latency 1 none = Except.error RunError.protocolError ∧
    (find_capture "hello".toList = none ∧
      test_latency 1 (some "hello") = Except.error RunError.protocolError) ∧
    ∃ q, test_latency (respConst 0).1 (respConst 0).2 = Except.ok q :=
  ⟨test_latency_protocol_failure.1 1,
    ⟨by decide, test_latency_protocol_failure.2.1 1 "hello" (by decide)⟩,
    test_latency_protocol_failure.2.2 respConst _
      (run_latency_test_ok_of_all respConst (fun _ => (40 : ℚ)) fun _ _ => test_latency_fifty_ten)
      0 (by decide)⟩

/-- C8: the throughput sampler walks the fixed ordered payload sizes
100000, 1000000, 10000000 and emits exactly `NR_TEST_RUNS` measurements
per size — each carrying the given test type and that payload size — with
one size's group fully populated before the next begins, so the result is
grouped by payload size in the set's order. -/
theorem run_tests_grouped (mbits : ℕ → ℕ → ℚ) (tt : TestType) :
    run_tests mbits tt =
      ((List.range NR_TEST_RUNS).map fun i => Measurement.mk tt 100000 (mbits 100000 i)) ++
        ((List.range NR_TEST_RUNS).map fun i => Measurement.mk tt 1000000 (mbits 1000000 i)) ++
        ((List.range NR_TEST_RUNS).map fun i => Measurement.mk tt 10000000 (mbits 10000000 i)) ∧
    (run_tests mbits tt).map Measurement.payload_size =
      List.replicate NR_TEST_RUNS 100000 ++ List.replicate NR_TEST_RUNS 1000000 ++
        List.replicate NR_TEST_RUNS 10000000 ∧
    ∀ m ∈ run_tests mbits tt, m.test_type = tt := by
  refine ⟨rfl, rfl, ?_⟩
  intro m hm
  have h2 : (run_tests mbits tt).map Measurement.test_type =
      List.replicate (3 * NR_TEST_RUNS) tt := rfl
  have h3 := List.mem_map_of_mem Measurement.test_type hm
  rw [h2] at h3
  exact List.eq_of_mem_replicate h3

/-- Witness for C8 instantiating the membership hypothesis at the head of
the emitted sequence for a constant-rate oracle. -/
theorem run_tests_grouped_witness :
    (run_tests (fun _ _ => (1 : ℚ)) TestType.Download).map Measurement.payload_size =
      List.replicate NR_TEST_RUNS 100000 ++ List.replicate NR_TEST_RUNS 1000000 ++
        List.replicate NR_TEST_RUNS 10000000 ∧
    (Measurement.mk TestType.Download 100000 1).test_type = TestType.Download :=
  ⟨(run_tests_grouped (fun _ _ => (1 : ℚ)) TestType.Download).2.1,
    (run_tests_grouped (fun _ _ => (1 : ℚ)) TestType.Download).2.2
      (Measurement.mk TestType.Download 100000 1) (by decide)⟩
